import Mathlib

/-!
Shallow embedding of the Void-MCP-Server context service (TypeScript) in Lean 4.

The embedding follows the source files:
* `ContextService` (search-query builders, item create/update, collection listing),
* `AuthService` (`hasPermission`, `hasCollectionPermission`, `validatePassword`).

Database effects are modelled by explicit state passing: the relevant tables are
lists of row structures, a transaction is a function returning `Except`
(an `Except.error` result models a full rollback: no writes survive), and
external nondeterminism (generated UUIDs, wall-clock time, the SHA-256 digest,
bcrypt comparison, the outcome of a store query) is passed in as parameters.
JavaScript truthiness is modelled explicitly where the source relies on it:
a present array is truthy even when empty, and the empty string is falsy.
-/

namespace VoidMCP

/-- A positionally bound SQL parameter value, as pushed into the `queryParams`
arrays of `ContextService`. -/
inductive SqlParam where
  | str (s : String)
  | strList (l : List String)
  | nat (n : Nat)
  deriving DecidableEq, Repr

/-- The `search_type` enum of `SearchParams` (zod: `semantic | fulltext | hybrid`). -/
inductive SearchType where
  | semantic
  | fulltext
  | hybrid
  deriving DecidableEq, Repr

/-- `SearchParams` from `ContextService`: `collection_ids` and `tags` are optional
arrays (zod `.optional()`), so `Option (List String)`; `none` models `undefined`. -/
structure SearchParams where
  query : String
  collection_ids : Option (List String)
  search_type : SearchType
  limit : Nat
  tags : Option (List String)
  deriving DecidableEq, Repr

/-- JS `o && o.length > 0` for an optional array: present and non-empty. -/
def optArrayNonEmpty (o : Option (List String)) : Bool :=
  match o with
  | some l => decide (0 < l.length)
  | none => false

/-- The placeholder index the tag clause uses in `buildFullTextQuery`:
`params.collection_ids ? 3 : 2` — JS truthiness, so a present-but-empty array
still selects 3. -/
def tagIndex (params : SearchParams) : Nat :=
  if params.collection_ids.isSome then 3 else 2

/-- The placeholder index of the LIMIT in `buildFullTextQuery`:
`params.tags ? (params.collection_ids ? 4 : 3) : (params.collection_ids ? 3 : 2)` —
again JS truthiness on both optional arrays. -/
def limitIndex (params : SearchParams) : Nat :=
  if params.tags.isSome then
    (if params.collection_ids.isSome then 4 else 3)
  else
    (if params.collection_ids.isSome then 3 else 2)

/-- The dynamically assembled WHERE clause of `buildFullTextQuery`: text-match
clause, then the collection-id clause when `collection_ids` is present and
non-empty, then the tag clause (with `tagIndex`) when `tags` is present and
non-empty. -/
def buildFullTextWhere (params : SearchParams) : String :=
  let whereClause := "ci.search_vector @@ plainto_tsquery($1)"
  let whereClause :=
    if optArrayNonEmpty params.collection_ids then
      whereClause ++ " AND ci.collection_id = ANY($2)"
    else whereClause
  let whereClause :=
    if optArrayNonEmpty params.tags then
      whereClause ++ " AND ci.tags && $" ++ toString (tagIndex params)
    else whereClause
  whereClause

/-- The ORDER clause of `buildFullTextQuery`. -/
def fullTextOrderClause : String :=
  "ORDER BY ts_rank(ci.search_vector, plainto_tsquery($1)) DESC"

/-- `ContextService.buildFullTextQuery`: the final SELECT, with the WHERE clause
of `buildFullTextWhere` and the LIMIT placeholder chosen by `limitIndex`. -/
def buildFullTextQuery (params : SearchParams) : String :=
  "SELECT ci.id, ci.title, ci.content, ci.content_type, ci.source_url, " ++
  "ci.source_type, ci.tags, ci.metadata, ci.created_at, ci.updated_at, " ++
  "cc.name as collection_name, " ++
  "ts_rank(ci.search_vector, plainto_tsquery($1)) as relevance_score " ++
  "FROM context_items ci " ++
  "JOIN context_collections cc ON ci.collection_id = cc.id " ++
  "WHERE ci.is_active = true AND " ++ buildFullTextWhere params ++ " " ++
  fullTextOrderClause ++ " " ++
  "LIMIT $" ++ toString (limitIndex params)

/-- `ContextService.buildFullTextParams`: `[query]`, then the collection-id
array when present and non-empty, then the tag array when present and
non-empty, then the limit. -/
def buildFullTextParams (params : SearchParams) : List SqlParam :=
  let queryParams := [SqlParam.str params.query]
  let queryParams :=
    match params.collection_ids with
    | some l => if 0 < l.length then queryParams ++ [SqlParam.strList l] else queryParams
    | none => queryParams
  let queryParams :=
    match params.tags with
    | some l => if 0 < l.length then queryParams ++ [SqlParam.strList l] else queryParams
    | none => queryParams
  queryParams ++ [SqlParam.nat params.limit]

/-- `ContextService.buildSemanticQuery`: a placeholder that falls back to
full-text. -/
def buildSemanticQuery (params : SearchParams) : String :=
  buildFullTextQuery params

/-- `ContextService.buildSemanticParams`. -/
def buildSemanticParams (params : SearchParams) : List SqlParam :=
  buildFullTextParams params

/-- `ContextService.buildHybridQuery`. -/
def buildHybridQuery (params : SearchParams) : String :=
  buildFullTextQuery params

/-- `ContextService.buildHybridParams`. -/
def buildHybridParams (params : SearchParams) : List SqlParam :=
  buildFullTextParams params

/-- The `switch (params.search_type)` dispatch inside `searchContext` choosing
the query text and parameter list (the `hybrid` case is also the `default`). -/
def searchQueryPlan (params : SearchParams) : String × List SqlParam :=
  match params.search_type with
  | SearchType.fulltext => (buildFullTextQuery params, buildFullTextParams params)
  | SearchType.semantic => (buildSemanticQuery params, buildSemanticParams params)
  | SearchType.hybrid => (buildHybridQuery params, buildHybridParams params)

/-- `ListCollectionsParams` from `ContextService`. -/
structure ListCollectionsParams where
  include_public : Bool
  tags : Option (List String)
  limit : Nat
  offset : Nat
  deriving DecidableEq, Repr

/-- The SELECT text of `listCollections`, parameterised by the assembled WHERE
clause and the value `paramIndex` has after the optional tag clause. -/
def listCollectionsQueryText (whereClause : String) (paramIndex : Nat) : String :=
  "SELECT cc.id, cc.name, cc.description, cc.is_public, cc.tags, cc.metadata, " ++
  "cc.created_at, cc.updated_at, COUNT(ci.id) as item_count " ++
  "FROM context_collections cc " ++
  "LEFT JOIN context_items ci ON cc.id = ci.collection_id AND ci.is_active = true " ++
  "WHERE " ++ whereClause ++ " " ++
  "GROUP BY cc.id ORDER BY cc.created_at DESC " ++
  "LIMIT $" ++ toString paramIndex ++ " OFFSET $" ++ toString (paramIndex + 1)

/-- `ContextService.listCollections`, query-building part: starts from
`whereClause = "1=1"`, `paramIndex = 1`; appends the tag-intersection clause and
pushes the tag array when `tags` is present and non-empty; finally appends
LIMIT/OFFSET placeholders and pushes `limit` and `offset`. The
`include_public` field is never consulted. -/
def listCollectionsPlan (params : ListCollectionsParams) : String × List SqlParam :=
  match params.tags with
  | some l =>
    if 0 < l.length then
      (listCollectionsQueryText ("1=1" ++ " AND tags && $" ++ toString 1) 2,
       [SqlParam.strList l, SqlParam.nat params.limit, SqlParam.nat params.offset])
    else
      (listCollectionsQueryText "1=1" 1,
       [SqlParam.nat params.limit, SqlParam.nat params.offset])
  | none =>
    (listCollectionsQueryText "1=1" 1,
     [SqlParam.nat params.limit, SqlParam.nat params.offset])

/-- Metadata records (`Record<string, any>`) are modelled opaquely by their JSON
serialization. A present record is always truthy in JS, so on metadata the
source's `params.metadata || currentItem.metadata` coincides with an
undefined-check (`Option.getD`); on strings it does not (the empty string is
falsy), which `jsOrString` models separately. -/
abbrev Metadata := String

/-- A row of the `context_items` table, with the columns the service reads and
writes (timestamps and search/embedding vectors, which no claim concerns, are
omitted). -/
structure ItemRow where
  id : String
  collection_id : String
  title : String
  content : String
  content_type : String
  source_url : Option String
  source_type : String
  content_hash : String
  size_bytes : Nat
  tags : List String
  metadata : Metadata
  version : Nat
  is_active : Bool
  created_by : Option String
  updated_by : Option String
  deriving DecidableEq, Repr

/-- A row of the `context_item_versions` table. -/
structure VersionRow where
  context_item_id : String
  version : Nat
  title : String
  content : String
  metadata : Metadata
  change_summary : Option String
  created_by : Option String
  deriving DecidableEq, Repr

/-- The store state the item operations touch: the ids of existing
`context_collections` rows, the `context_items` rows, and the
`context_item_versions` rows. -/
structure DBState where
  collections : List String
  items : List ItemRow
  versions : List VersionRow
  deriving DecidableEq, Repr

/-- `CreateItemParams` from `ContextService`. -/
structure CreateItemParams where
  collection_id : String
  title : String
  content : String
  content_type : String
  source_url : Option String
  source_type : String
  tags : List String
  metadata : Metadata
  deriving DecidableEq, Repr

/-- `UpdateItemParams` from `ContextService`: every field except `item_id` is
optional. -/
structure UpdateItemParams where
  item_id : String
  title : Option String
  content : Option String
  tags : Option (List String)
  metadata : Option Metadata
  change_summary : Option String
  deriving DecidableEq, Repr

/-- JS `a || b` where `a` is an optional string: both `undefined` and the empty
string fall through to `b`. -/
def jsOrString (a : Option String) (b : String) : String :=
  match a with
  | some s => if s = "" then b else s
  | none => b

/-- The `context_items` row inserted by `createContextItem`. The INSERT does not
set `version` or `is_active`, so the schema defaults apply
(`version INTEGER DEFAULT 1`, `is_active BOOLEAN DEFAULT true`); `created_by`
and `updated_by` both receive `$12 = userId`. -/
def createdItemRow (hash : String → String) (newId : String)
    (params : CreateItemParams) (userId : Option String) : ItemRow :=
  { id := newId
    collection_id := params.collection_id
    title := params.title
    content := params.content
    content_type := params.content_type
    source_url := params.source_url
    source_type := params.source_type
    content_hash := hash params.content
    size_bytes := params.content.utf8ByteSize
    tags := params.tags
    metadata := params.metadata
    version := 1
    is_active := true
    created_by := userId
    updated_by := userId }

/-- The initial `context_item_versions` row inserted by `createContextItem`
(`version = 1`; no `change_summary` column in the INSERT, so the column is
NULL). -/
def createdVersionRow (newId : String) (params : CreateItemParams)
    (userId : Option String) : VersionRow :=
  { context_item_id := newId
    version := 1
    title := params.title
    content := params.content
    metadata := params.metadata
    change_summary := none
    created_by := userId }

/-- `ContextService.createContextItem`. The SHA-256 digest is passed in as
`hash`, the generated UUID as `newId`. Inside one transaction: the duplicate
check against active items with the same content hash, then the
collection-existence check, then the item INSERT and the version-1 INSERT.
An `Except.error` result models the thrown error after rollback: no writes
survive. -/
def createContextItem (hash : String → String) (newId : String)
    (params : CreateItemParams) (userId : Option String)
    (s : DBState) : Except String (ItemRow × DBState) :=
  if 0 < (s.items.filter fun i => i.content_hash == hash params.content && i.is_active).length then
    Except.error "Duplicate content detected"
  else if (s.collections.filter fun c => c == params.collection_id).length = 0 then
    Except.error "Collection not found"
  else
    Except.ok (createdItemRow hash newId params userId,
      { s with
        items := s.items ++ [createdItemRow hash newId params userId]
        versions := s.versions ++ [createdVersionRow newId params userId] })

/-- The dynamically assembled list of SET fragments of `updateContextItem`:
one per supplied optional field (a content change also rewrites
`content_hash` and `size_bytes`), and then — unconditionally — `version` and
`updated_by`. -/
def updateFragments (params : UpdateItemParams) : List String :=
  (if params.title.isSome then ["title"] else []) ++
  (if params.content.isSome then ["content", "content_hash", "size_bytes"] else []) ++
  (if params.tags.isSome then ["tags"] else []) ++
  (if params.metadata.isSome then ["metadata"] else []) ++
  ["version", "updated_by"]

/-- The `context_items` row produced by `updateContextItem`'s UPDATE: fields
guarded by `!== undefined` take the supplied value (the empty string counts
as supplied); a content change recomputes hash and size; `version` becomes
`currentItem.version + 1` and `updated_by` is always set. -/
def updatedItemRow (hash : String → String) (params : UpdateItemParams)
    (userId : Option String) (currentItem : ItemRow) : ItemRow :=
  { currentItem with
    title := params.title.getD currentItem.title
    content := params.content.getD currentItem.content
    content_hash :=
      match params.content with
      | some c => hash c
      | none => currentItem.content_hash
    size_bytes :=
      match params.content with
      | some c => c.utf8ByteSize
      | none => currentItem.size_bytes
    tags := params.tags.getD currentItem.tags
    metadata := params.metadata.getD currentItem.metadata
    version := currentItem.version + 1
    updated_by := userId }

/-- The `context_item_versions` row inserted by `updateContextItem`: its title
and content come from JS `||` against the current row (`jsOrString` — the
empty string falls back to the old value), its metadata from `||` on records
(a present record is truthy, hence `Option.getD`). -/
def updatedVersionRow (params : UpdateItemParams) (userId : Option String)
    (currentItem : ItemRow) : VersionRow :=
  { context_item_id := params.item_id
    version := currentItem.version + 1
    title := jsOrString params.title currentItem.title
    content := jsOrString params.content currentItem.content
    metadata := params.metadata.getD currentItem.metadata
    change_summary := params.change_summary
    created_by := userId }

/-- `ContextService.updateContextItem`. Loads the active current item; builds
the dynamic `updates` list (`updateFragments`); checks `updates.length === 0`;
performs the UPDATE (`updatedItemRow`, written back under the item's id) and
inserts the new version row (`updatedVersionRow`). An `Except.error` result
models the thrown error after rollback. -/
def updateContextItem (hash : String → String) (params : UpdateItemParams)
    (userId : Option String) (s : DBState) : Except String (ItemRow × DBState) :=
  match s.items.find? (fun i => i.id == params.item_id && i.is_active) with
  | none => Except.error "Context item not found"
  | some currentItem =>
    if (updateFragments params).length = 0 then
      Except.error "No updates provided"
    else
      let updatedRow := updatedItemRow hash params userId currentItem
      Except.ok (updatedRow,
        { s with
          items := s.items.map fun i => if i.id == params.item_id then updatedRow else i
          versions := s.versions ++ [updatedVersionRow params userId currentItem] })

/-- The result payload `searchContext` returns on success. -/
structure SearchResult (α : Type) where
  items : List α
  total : Nat
  query_type : SearchType
  execution_time_ms : Nat
  deriving DecidableEq, Repr

/-- A row of the `search_analytics` table as written by
`ContextService.logSearchAnalytics`. -/
structure SearchAnalyticsEntry where
  user_id : Option String
  query : String
  query_type : SearchType
  results_count : Nat
  execution_time_ms : Nat
  collection_ids : List String
  deriving DecidableEq, Repr

/-- `ContextService.searchContext`, with the store's answer to the built query
passed in as `dbResult` (rows on success, the thrown error otherwise) and the
measured elapsed time as `duration`. When `db.query` throws, control jumps to
the catch block, which logs and rethrows — `logSearchAnalytics` is never
reached, so the second component (the analytics rows written) is empty. On
success exactly one analytics row is written before the result is returned. -/
def searchContext (params : SearchParams) (userId : Option String)
    (dbResult : Except String (List α)) (duration : Nat) :
    Except String (SearchResult α) × List SearchAnalyticsEntry :=
  match dbResult with
  | Except.error e => (Except.error e, [])
  | Except.ok rows =>
    (Except.ok
      { items := rows
        total := rows.length
        query_type := params.search_type
        execution_time_ms := duration },
     [{ user_id := userId
        query := params.query
        query_type := params.search_type
        results_count := rows.length
        execution_time_ms := duration
        collection_ids := params.collection_ids.getD [] }])

/-- Splits a character list at every occurrence of the separator, keeping empty
segments — the semantics of JS `String.prototype.split` with a single-character
separator. Structurally recursive, so concrete instances evaluate in the
kernel. -/
def splitOnChar (c : Char) : List Char → List (List Char)
  | [] => [[]]
  | x :: xs =>
    if x = c then [] :: splitOnChar c xs
    else
      match splitOnChar c xs with
      | [] => [[x]]
      | y :: ys => (x :: y) :: ys

/-- JS `s.split(c)` for a single-character separator. -/
def jsSplit (s : String) (c : Char) : List String :=
  (splitOnChar c s.data).map String.mk

/-- JS `s.startsWith(pre)`, via the structural `List.isPrefixOf` on the
character lists. -/
def jsStartsWith (s pre : String) : Bool :=
  pre.data.isPrefixOf s.data

/-- User roles (`admin`, `user`, `readonly`). -/
inductive Role where
  | admin
  | user
  | readonly
  deriving DecidableEq, Repr

/-- The columns of a `users` row that `hasPermission` reads. -/
structure AuthUserRow where
  id : String
  role : Role
  is_active : Bool
  deriving DecidableEq, Repr

/-- The columns of a `context_collections` row that the permission check
reads. -/
structure CollectionRow where
  id : String
  owner_id : String
  deriving DecidableEq, Repr

/-- A row of `context_permissions`: an explicit grant
(`read` / `write` / `admin`) for a (collection, user) pair. -/
structure PermissionRow where
  collection_id : String
  user_id : String
  permission : String
  deriving DecidableEq, Repr

/-- The store state the permission checks read. -/
structure AuthDB where
  users : List AuthUserRow
  collections : List CollectionRow
  permissions : List PermissionRow
  deriving DecidableEq, Repr

/-- `AuthService.hasCollectionPermission`: the LEFT JOIN returns the collection
row (if any) together with the grant for (collection, caller), if any.
Owner check first; otherwise the grant's level is consulted
(`if (permission)` — a NULL or empty-string level is falsy and yields false). -/
def hasCollectionPermission (d : AuthDB) (userId collectionId action : String) : Bool :=
  match d.collections.find? (fun c => c.id == collectionId) with
  | none => false
  | some cc =>
    let grant := d.permissions.find? fun p =>
      p.collection_id == cc.id && p.user_id == userId
    if cc.owner_id == userId then true
    else
      match grant with
      | none => false
      | some g =>
        if g.permission == "" then false
        else if action == "read" then
          g.permission == "read" || g.permission == "write" || g.permission == "admin"
        else if action == "write" then
          g.permission == "write" || g.permission == "admin"
        else if action == "admin" then
          g.permission == "admin"
        else false

/-- `AuthService.hasPermission`: looks up the active user; `admin` role passes
unconditionally; `readonly` role fails for any action other than `read`
(before any ownership is consulted); a `collection:`-scoped resource delegates
to `hasCollectionPermission` with `resource.split(':')[1]`; otherwise the
answer is `role === 'user'`. -/
def hasPermission (d : AuthDB) (userId resource action : String) : Bool :=
  match d.users.find? (fun u => u.id == userId && u.is_active) with
  | none => false
  | some u =>
    if u.role = Role.admin then true
    else if u.role = Role.readonly && action != "read" then false
    else if jsStartsWith resource "collection:" then
      hasCollectionPermission d userId ((jsSplit resource ':').getD 1 "") action
    else
      u.role = Role.user

/-- The `users` columns `validatePassword` reads and writes. Timestamps are
milliseconds as in JS `Date.now()`. -/
structure AuthUserState where
  password_hash : String
  failed_login_attempts : Nat
  locked_until : Option Nat
  is_active : Bool
  deriving DecidableEq, Repr

/-- JS `user.locked_until && new Date() < new Date(user.locked_until)`:
the lock is in force iff a lock timestamp exists and lies strictly in the
future. -/
def lockActive (lockedUntil : Option Nat) (now : Nat) : Bool :=
  match lockedUntil with
  | some t => decide (now < t)
  | none => false

/-- `AuthService.validatePassword` as a state transformer on the user's row.
The bcrypt comparison is passed in as `verify`, the current time as `now`.
Inactive/unknown user: false, no change. Lock in force: false without
consulting `verify`, no change. Otherwise: a valid password resets the
failure counter and clears the lock; an invalid one increments the counter and,
on reaching 5, sets a lock 30 minutes (1 800 000 ms) out. -/
def validatePassword (verify : String → String → Bool) (now : Nat)
    (st : AuthUserState) (password : String) : Bool × AuthUserState :=
  if st.is_active = false then (false, st)
  else if lockActive st.locked_until now then (false, st)
  else
    let isValid := verify password st.password_hash
    if isValid then
      (true, { st with failed_login_attempts := 0, locked_until := none })
    else
      let newFailedAttempts := st.failed_login_attempts + 1
      let lockUntil : Option Nat :=
        if 5 ≤ newFailedAttempts then some (now + 30 * 60 * 1000) else none
      (false, { st with
        failed_login_attempts := newFailedAttempts
        locked_until := lockUntil })

/-! ## Sample data for concrete evaluations -/

/-- A sample active item "I1" at version 1 in collection "C1". Its
`content_hash` is the content itself: the concrete evaluations model the
digest by the identity function. -/
def demoItem : ItemRow :=
  { id := "I1", collection_id := "C1", title := "A", content := "hello"
    content_type := "text/plain", source_url := none, source_type := "manual"
    content_hash := "hello", size_bytes := 5, tags := ["t"], metadata := "{}"
    version := 1, is_active := true, created_by := some "U0", updated_by := some "U0" }

/-- The version-1 row of `demoItem`. -/
def demoVersionRow : VersionRow :=
  { context_item_id := "I1", version := 1, title := "A", content := "hello"
    metadata := "{}", change_summary := none, created_by := some "U0" }

/-- A sample store state holding collection "C1", `demoItem` and its version-1
row. -/
def demoState : DBState :=
  { collections := ["C1"], items := [demoItem], versions := [demoVersionRow] }

/-- Sample creation parameters targeting collection "C1". -/
def demoCreateParams : CreateItemParams :=
  { collection_id := "C1", title := "Doc", content := "hello world"
    content_type := "text/plain", source_url := none, source_type := "manual"
    tags := [], metadata := "{}" }

/-! ## Supporting lemmas -/

/-- `updateFragments` always ends in the unconditional `version` and
`updated_by` fragments, so it is never empty. -/
theorem updateFragments_length_ne_zero (params : UpdateItemParams) :
    (updateFragments params).length ≠ 0 := by
  unfold updateFragments
  simp [List.length_append]

/-- The behaviour of `updateContextItem` once the active item is found: the
`updates.length === 0` rejection can never fire, so the UPDATE and the version
INSERT always proceed. -/
theorem updateContextItem_found (hash : String → String) (params : UpdateItemParams)
    (userId : Option String) (s : DBState) (cur : ItemRow)
    (hfind : s.items.find? (fun i => i.id == params.item_id && i.is_active) = some cur) :
    updateContextItem hash params userId s =
      Except.ok (updatedItemRow hash params userId cur,
        { s with
          items := s.items.map fun i =>
            if i.id == params.item_id then updatedItemRow hash params userId cur else i
          versions := s.versions ++ [updatedVersionRow params userId cur] }) := by
  unfold updateContextItem
  rw [hfind]
  dsimp only
  rw [if_neg (updateFragments_length_ne_zero params)]

/-- A list is a `List.isPrefixOf` of itself followed by anything. -/
theorem isPrefixOf_self_append (l t : List Char) : l.isPrefixOf (l ++ t) = true := by
  induction l with
  | nil => simp [List.isPrefixOf]
  | cons a as ih => simp [List.isPrefixOf, ih]

/-- `splitOnChar` of a separator-free list is the singleton of that list. -/
theorem splitOnChar_no_sep (c : Char) (l : List Char) (h : ∀ a ∈ l, a ≠ c) :
    splitOnChar c l = [l] := by
  induction l with
  | nil => rfl
  | cons x xs ih =>
    have hx : x ≠ c := h x (List.mem_cons_self x xs)
    have hxs : ∀ a ∈ xs, a ≠ c := fun a ha => h a (List.mem_cons_of_mem x ha)
    simp [splitOnChar, hx, ih hxs]

/-- `splitOnChar` splits at the first separator after a separator-free head. -/
theorem splitOnChar_append_sep (c : Char) (pre suf : List Char)
    (h : ∀ a ∈ pre, a ≠ c) :
    splitOnChar c (pre ++ c :: suf) = pre :: splitOnChar c suf := by
  induction pre with
  | nil => simp [splitOnChar]
  | cons x xs ih =>
    have hx : x ≠ c := h x (List.mem_cons_self x xs)
    have hxs : ∀ a ∈ xs, a ≠ c := fun a ha => h a (List.mem_cons_of_mem x ha)
    simp [splitOnChar, hx, ih hxs]

/-- `resource.split(':')[1]` recovers the collection id from a
`collection:<id>` resource as long as the id itself contains no `:`. -/
theorem collection_resource_parse (cid : String) (hid : ∀ a ∈ cid.data, a ≠ ':') :
    (jsSplit ("collection:" ++ cid) ':').getD 1 "" = cid := by
  show ((splitOnChar ':' ("collection".data ++ ':' :: cid.data)).map String.mk).getD 1 "" = cid
  rw [splitOnChar_append_sep ':' "collection".data cid.data (by decide),
    splitOnChar_no_sep ':' cid.data hid]
  rfl

/-- A `collection:<id>` resource always passes the `startsWith('collection:')`
test. -/
theorem jsStartsWith_collection (cid : String) :
    jsStartsWith ("collection:" ++ cid) "collection:" = true := by
  show "collection:".data.isPrefixOf ("collection:".data ++ cid.data) = true
  exact isPrefixOf_self_append "collection:".data cid.data

/-- The owner branch of `hasCollectionPermission`: when the collection is found
and owned by the caller, the check is true for every action, before any grant
row is consulted. -/
theorem hasCollectionPermission_owner (d : AuthDB) (uid : String) (c : CollectionRow)
    (hc : d.collections.find? (fun x => x.id == c.id) = some c)
    (howner : c.owner_id = uid) (action : String) :
    hasCollectionPermission d uid c.id action = true := by
  unfold hasCollectionPermission
  rw [hc]
  dsimp only
  rw [howner]
  simp

/-! ## Claims -/

/-- C1: the claim says an update supplying only `item_id` is rejected with
`NoChanges` ("No updates provided") leaving the item, including its version,
unchanged. In the code, the `version` and `updated_by` SET fragments are pushed
unconditionally *before* the `updates.length === 0` check, so that rejection is
unreachable: the update proceeds and bumps the version. First conjunct: no
input whatsoever can produce the "No updates provided" error. Second conjunct:
on the sample state, a field-less update against active item "I1" succeeds,
bumps the version from 1 to 2 and writes a version-2 row. -/
theorem updateContextItem_noChanges_unreachable :
    (∀ (hash : String → String) (params : UpdateItemParams)
        (userId : Option String) (s : DBState),
      updateContextItem hash params userId s ≠ Except.error "No updates provided") ∧
    updateContextItem (fun c => c) ⟨"I1", none, none, none, none, none⟩ (some "U") demoState =
      Except.ok ({ demoItem with version := 2, updated_by := some "U" },
        { demoState with
          items := [{ demoItem with version := 2, updated_by := some "U" }]
          versions := [demoVersionRow,
            { context_item_id := "I1", version := 2, title := "A", content := "hello"
              metadata := "{}", change_summary := none, created_by := some "U" }] }) := by
  constructor
  · intro hash params userId s
    cases hfind : s.items.find? (fun i => i.id == params.item_id && i.is_active) with
    | none =>
      unfold updateContextItem
      rw [hfind]
      simp
    | some cur =>
      rw [updateContextItem_found hash params userId s cur hfind]
      simp
  · rfl

/-- C2: the claim says every placeholder index in the full-text query equals
the position of its value in the parameter list, for every combination
including empty arrays. The index computations use JS truthiness
(`params.collection_ids ? 3 : 2`) while clause emission and parameter pushing
use `.length > 0`, so a present-but-empty `collection_ids` misaligns them.
At `collection_ids = []`, `tags = ["a"]`: the parameter list is
`[query, tags, limit]` (three values), yet the WHERE clause binds the tags to
`$3` (where the limit sits) and the query references `$4` for the limit, which
does not exist. -/
theorem fullTextQuery_positional_mismatch :
    buildFullTextParams ⟨"q", some [], SearchType.fulltext, 10, some ["a"]⟩ =
      [SqlParam.str "q", SqlParam.strList ["a"], SqlParam.nat 10] ∧
    buildFullTextWhere ⟨"q", some [], SearchType.fulltext, 10, some ["a"]⟩ =
      "ci.search_vector @@ plainto_tsquery($1) AND ci.tags && $3" ∧
    tagIndex ⟨"q", some [], SearchType.fulltext, 10, some ["a"]⟩ = 3 ∧
    limitIndex ⟨"q", some [], SearchType.fulltext, 10, some ["a"]⟩ = 4 ∧
    (buildFullTextParams ⟨"q", some [], SearchType.fulltext, 10, some ["a"]⟩).length = 3 := by
  refine ⟨rfl, ?_, rfl, rfl, rfl⟩
  rfl

/-- C4: the claim says every version row's title, content and metadata equal
the item's stored values immediately after the update that produced it. The
snapshot INSERT uses JS `||` (`params.title || currentItem.title`) while the
UPDATE uses `!== undefined`, so updating the title to the empty string stores
`""` on the item but the *old* title in the snapshot. On the sample state
(item "I1" titled "A"): the update succeeds, the stored title becomes `""`,
and the version-2 snapshot records title "A" — the snapshot differs from the
stored state. -/
theorem updateContextItem_snapshot_mismatch :
    updateContextItem (fun c => c) ⟨"I1", some "", none, none, none, none⟩
        (some "U") demoState =
      Except.ok ({ demoItem with title := "", version := 2, updated_by := some "U" },
        { demoState with
          items := [{ demoItem with title := "", version := 2, updated_by := some "U" }]
          versions := [demoVersionRow,
            { context_item_id := "I1", version := 2, title := "A", content := "hello"
              metadata := "{}", change_summary := none, created_by := some "U" }] }) ∧
    ({ demoItem with title := "", version := 2, updated_by := some "U" } : ItemRow).title ≠
      ({ context_item_id := "I1", version := 2, title := "A", content := "hello"
         metadata := "{}", change_summary := none, created_by := some "U" } : VersionRow).title := by
  exact ⟨rfl, by decide⟩

/-- C6 (counterexample): the claim says every search call records exactly one
analytics entry regardless of outcome. When the store query fails, the catch
block rethrows without reaching `logSearchAnalytics`: zero entries are
written. -/
theorem searchContext_store_failure_no_analytics :
    (searchContext ⟨"q", none, SearchType.hybrid, 10, none⟩ none
      (Except.error "connection terminated" : Except String (List Nat)) 5).2 = [] := rfl

/-- C6 (amended): a search records exactly one analytics entry — carrying the
query text, search type, result count and elapsed time — precisely when the
store query succeeds; when the store query fails, the error propagates and no
analytics entry is written. -/
theorem searchContext_analytics_iff_success (α : Type) (p : SearchParams)
    (userId : Option String) (rows : List α) (duration : Nat) (e : String) :
    searchContext p userId (Except.ok rows) duration =
      (Except.ok { items := rows, total := rows.length, query_type := p.search_type
                   execution_time_ms := duration },
       [{ user_id := userId, query := p.query, query_type := p.search_type
          results_count := rows.length, execution_time_ms := duration
          collection_ids := p.collection_ids.getD [] }]) ∧
    searchContext p userId (Except.error e : Except String (List α)) duration =
      (Except.error e, []) :=
  ⟨rfl, rfl⟩

/-- C8: for every parameter combination, the `semantic` and `hybrid` builders
produce exactly the query text and parameter list of the `fulltext` builder,
and the `searchContext` dispatch therefore yields the same plan for all three
search types. -/
theorem semantic_hybrid_equal_fulltext (p : SearchParams) :
    buildSemanticQuery p = buildFullTextQuery p ∧
    buildSemanticParams p = buildFullTextParams p ∧
    buildHybridQuery p = buildFullTextQuery p ∧
    buildHybridParams p = buildFullTextParams p ∧
    searchQueryPlan { p with search_type := SearchType.semantic } =
      searchQueryPlan { p with search_type := SearchType.fulltext } ∧
    searchQueryPlan { p with search_type := SearchType.hybrid } =
      searchQueryPlan { p with search_type := SearchType.fulltext } :=
  ⟨rfl, rfl, rfl, rfl, rfl, rfl⟩

/-- C10: `listCollections` never consults `include_public`: two calls differing
only in that flag build the same query text and the same parameter list. -/
theorem listCollections_include_public_no_effect (tags : Option (List String))
    (limit offset : Nat) :
    listCollectionsPlan { include_public := true, tags := tags, limit := limit, offset := offset } =
      listCollectionsPlan { include_public := false, tags := tags, limit := limit, offset := offset } :=
  rfl

/-- C3 (counterexample): the claim says a collection owner gets
read/write/admin permission regardless of their role. But `hasPermission`
rejects a `readonly`-role caller for any action other than `read` *before*
ownership is consulted: here "U1" (role `readonly`, active) owns collection
"C1", there are no grant rows, yet the write check returns false. -/
theorem hasPermission_readonly_owner_write_denied :
    hasPermission
      { users := [{ id := "U1", role := Role.readonly, is_active := true }]
        collections := [{ id := "C1", owner_id := "U1" }]
        permissions := [] }
      "U1" "collection:C1" "write" = false := by decide

/-- C3 (amended): for every active user found under their id and every
collection (with a `:`-free id) found under its id and owned by that user,
`hasPermission` on the `collection:<id>` resource returns true for read, write
and admin when the user's role is not `readonly` — regardless of any
permission-grant rows; `read` is granted for every role; but a
`readonly`-role owner is denied write and admin. -/
theorem hasPermission_owner_role_dependent (d : AuthDB) (u : AuthUserRow)
    (c : CollectionRow)
    (hu : d.users.find? (fun x => x.id == u.id && x.is_active) = some u)
    (hc : d.collections.find? (fun x => x.id == c.id) = some c)
    (hid : ∀ a ∈ c.id.data, a ≠ ':')
    (howner : c.owner_id = u.id) :
    (u.role ≠ Role.readonly →
      hasPermission d u.id ("collection:" ++ c.id) "read" = true ∧
      hasPermission d u.id ("collection:" ++ c.id) "write" = true ∧
      hasPermission d u.id ("collection:" ++ c.id) "admin" = true) ∧
    hasPermission d u.id ("collection:" ++ c.id) "read" = true ∧
    (u.role = Role.readonly →
      hasPermission d u.id ("collection:" ++ c.id) "write" = false ∧
      hasPermission d u.id ("collection:" ++ c.id) "admin" = false) := by
  have hperm : ∀ action, hasCollectionPermission d u.id c.id action = true :=
    hasCollectionPermission_owner d u.id c hc howner
  have hparse := collection_resource_parse c.id hid
  have hpre := jsStartsWith_collection c.id
  unfold hasPermission
  rw [hu]
  dsimp only
  cases hrole : u.role with
  | admin =>
    refine ⟨fun _ => ⟨by simp, by simp, by simp⟩, by simp, fun hro => ?_⟩
    simp at hro
  | user =>
    refine ⟨fun _ => ⟨?_, ?_, ?_⟩, ?_, fun hro => absurd hro (by decide)⟩ <;>
      (simp only [hpre, hparse]; simp [hperm])
  | readonly =>
    refine ⟨fun hro => absurd rfl hro, ?_, fun _ => ⟨by simp, by simp⟩⟩
    simp only [hpre, hparse]
    simp [hperm]

/-- C3 (witness for the amended theorem): a `user`-role owner "U2" of
collection "C1" — which even carries an explicit read-only grant row for
"U2" — passes the write check. -/
theorem hasPermission_owner_role_dependent_witness :
    hasPermission
      { users := [{ id := "U2", role := Role.user, is_active := true }]
        collections := [{ id := "C1", owner_id := "U2" }]
        permissions := [{ collection_id := "C1", user_id := "U2", permission := "read" }] }
      "U2" ("collection:" ++ "C1") "write" = true :=
  (((hasPermission_owner_role_dependent
      { users := [{ id := "U2", role := Role.user, is_active := true }]
        collections := [{ id := "C1", owner_id := "U2" }]
        permissions := [{ collection_id := "C1", user_id := "U2", permission := "read" }] }
      { id := "U2", role := Role.user, is_active := true }
      { id := "C1", owner_id := "U2" }
      (by decide) (by decide) (by decide) rfl).1 (by decide)).2).1

/-- C5: creating an item whose content hash matches no active item, into an
existing collection, succeeds with an item at version 1 (and active), writes
in the same transaction exactly one version row for the new item — at version
1 and matching the item's title, content and metadata — and a second create
with identical content against the resulting state fails with
"Duplicate content detected" (the transaction model writes nothing on
failure). -/
theorem createContextItem_dedup (hash : String → String) (newId newId2 : String)
    (p p2 : CreateItemParams) (userId userId2 : Option String) (s : DBState)
    (hnodup : s.items.filter (fun i => i.content_hash == hash p.content && i.is_active) = [])
    (hcoll : p.collection_id ∈ s.collections)
    (hfresh : s.versions.filter (fun v => v.context_item_id == newId) = [])
    (hsame : p2.content = p.content) :
    createContextItem hash newId p userId s =
      Except.ok (createdItemRow hash newId p userId,
        { s with
          items := s.items ++ [createdItemRow hash newId p userId]
          versions := s.versions ++ [createdVersionRow newId p userId] }) ∧
    (createdItemRow hash newId p userId).version = 1 ∧
    (createdItemRow hash newId p userId).is_active = true ∧
    (createdVersionRow newId p userId).version = 1 ∧
    (createdVersionRow newId p userId).title = (createdItemRow hash newId p userId).title ∧
    (createdVersionRow newId p userId).content = (createdItemRow hash newId p userId).content ∧
    (createdVersionRow newId p userId).metadata = (createdItemRow hash newId p userId).metadata ∧
    (s.versions ++ [createdVersionRow newId p userId]).filter
        (fun v => v.context_item_id == newId) = [createdVersionRow newId p userId] ∧
    createContextItem hash newId2 p2 userId2
      { s with
        items := s.items ++ [createdItemRow hash newId p userId]
        versions := s.versions ++ [createdVersionRow newId p userId] } =
      Except.error "Duplicate content detected" := by
  have hcoll' : ¬ (s.collections.filter fun c => c == p.collection_id).length = 0 := by
    have hmem : p.collection_id ∈ s.collections.filter (fun c => c == p.collection_id) :=
      List.mem_filter.mpr ⟨hcoll, by simp⟩
    simpa [List.length_eq_zero] using List.ne_nil_of_mem hmem
  have h1 : ¬ 0 < (s.items.filter fun i =>
      i.content_hash == hash p.content && i.is_active).length := by
    rw [hnodup]
    simp
  refine ⟨?_, rfl, rfl, rfl, rfl, rfl, rfl, ?_, ?_⟩
  · unfold createContextItem
    rw [if_neg h1, if_neg hcoll']
  · rw [List.filter_append, hfresh]
    simp [createdVersionRow]
  · have h2 : 0 < ((s.items ++ [createdItemRow hash newId p userId]).filter fun i =>
        i.content_hash == hash p2.content && i.is_active).length := by
      rw [hsame, List.filter_append, hnodup]
      simp [createdItemRow]
    unfold createContextItem
    rw [if_pos h2]

/-- C5 (witness): on a store holding only collection "C1", creating
"hello world" as "I1" succeeds, and an immediate second create of the same
content as "I2" is rejected as duplicate. -/
theorem createContextItem_dedup_witness :
    createContextItem (fun c => c) "I1" demoCreateParams (some "U")
        { collections := ["C1"], items := [], versions := [] } =
      Except.ok (createdItemRow (fun c => c) "I1" demoCreateParams (some "U"),
        { collections := ["C1"]
          items := [createdItemRow (fun c => c) "I1" demoCreateParams (some "U")]
          versions := [createdVersionRow "I1" demoCreateParams (some "U")] }) ∧
    createContextItem (fun c => c) "I2" demoCreateParams (some "U")
        { collections := ["C1"]
          items := [createdItemRow (fun c => c) "I1" demoCreateParams (some "U")]
          versions := [createdVersionRow "I1" demoCreateParams (some "U")] } =
      Except.error "Duplicate content detected" :=
  ⟨(createContextItem_dedup (fun c => c) "I1" "I2" demoCreateParams demoCreateParams
      (some "U") (some "U") { collections := ["C1"], items := [], versions := [] }
      rfl (by decide) rfl rfl).1,
   (createContextItem_dedup (fun c => c) "I1" "I2" demoCreateParams demoCreateParams
      (some "U") (some "U") { collections := ["C1"], items := [], versions := [] }
      rfl (by decide) rfl rfl).2.2.2.2.2.2.2.2⟩

/-- C7: the lockout protocol of `validatePassword` for an active user.
(1) A failed check below the lock increments the failure counter, and the
check that reaches 5 failures sets a lock expiring 30 minutes
(1 800 000 ms) later. (2) That reaching check locks the account. (3) While a
lock is in force (now strictly before expiry), every check returns false with
the state unchanged — for *every* password and every comparison function, so
the hash is never consulted and the 6th check fails even with the correct
password. (4) Once no lock is in force (expired or absent), a correct
password returns true, resets the counter to 0 and clears the lock. -/
theorem validatePassword_lockout (verify : String → String → Bool)
    (password : String) (now tl : Nat) (st : AuthUserState)
    (hactive : st.is_active = true) :
    (lockActive st.locked_until now = false →
      verify password st.password_hash = false →
      validatePassword verify now st password =
        (false, { st with
          failed_login_attempts := st.failed_login_attempts + 1
          locked_until := if 5 ≤ st.failed_login_attempts + 1
                          then some (now + 30 * 60 * 1000) else none })) ∧
    (st.failed_login_attempts = 4 → lockActive st.locked_until now = false →
      verify password st.password_hash = false →
      (validatePassword verify now st password).2.locked_until =
        some (now + 30 * 60 * 1000)) ∧
    (st.locked_until = some tl → now < tl →
      validatePassword verify now st password = (false, st)) ∧
    (lockActive st.locked_until now = false →
      verify password st.password_hash = true →
      validatePassword verify now st password =
        (true, { st with failed_login_attempts := 0, locked_until := none })) := by
  have main1 : lockActive st.locked_until now = false →
      verify password st.password_hash = false →
      validatePassword verify now st password =
        (false, { st with
          failed_login_attempts := st.failed_login_attempts + 1
          locked_until := if 5 ≤ st.failed_login_attempts + 1
                          then some (now + 30 * 60 * 1000) else none }) := by
    intro hlock hbad
    simp [validatePassword, hactive, hlock, hbad]
  refine ⟨main1, ?_, ?_, ?_⟩
  · intro h4 hlock hbad
    rw [main1 hlock hbad]
    simp [h4]
  · intro hl hnow
    have hla : lockActive st.locked_until now = true := by
      simp [lockActive, hl, hnow]
    simp [validatePassword, hactive, hla]
  · intro hlock hgood
    simp [validatePassword, hactive, hlock, hgood]

/-- C7 (witness): an active user at 4 failed attempts with no lock; a 5th
failed check (wrong password under string-equality comparison) returns false
and locks the account until 1 801 000 ms. -/
theorem validatePassword_lockout_witness :
    validatePassword (fun p h => p == h) 1000
        { password_hash := "pw", failed_login_attempts := 4
          locked_until := none, is_active := true } "x" =
      (false, { password_hash := "pw", failed_login_attempts := 5
                locked_until := some (1000 + 30 * 60 * 1000), is_active := true }) :=
  (validatePassword_lockout (fun p h => p == h) "x" 1000 0
    { password_hash := "pw", failed_login_attempts := 4
      locked_until := none, is_active := true } rfl).1 rfl (by decide)

/-- C9: the duplicate-content check of `createContextItem` runs before the
collection-existence check: when an active item with the requested content
hash already exists and the requested collection id matches no collection,
the failure is "Duplicate content detected", not "Collection not found". -/
theorem createContextItem_duplicate_checked_first (hash : String → String)
    (newId : String) (p : CreateItemParams) (userId : Option String) (s : DBState)
    (i : ItemRow) (hi : i ∈ s.items) (hactive : i.is_active = true)
    (hhash : i.content_hash = hash p.content)
    (_hnocoll : p.collection_id ∉ s.collections) :
    createContextItem hash newId p userId s =
      Except.error "Duplicate content detected" := by
  have hmem : i ∈ s.items.filter (fun j => j.content_hash == hash p.content && j.is_active) :=
    List.mem_filter.mpr ⟨hi, by simp [hhash, hactive]⟩
  have hlen : 0 < (s.items.filter fun j =>
      j.content_hash == hash p.content && j.is_active).length :=
    List.length_pos.mpr (List.ne_nil_of_mem hmem)
  unfold createContextItem
  rw [if_pos hlen]

/-- C9 (witness): on the sample state (active item "I1" with content hash
"hello", collections = ["C1"]), a create with the same content into the
nonexistent collection "NOPE" fails as duplicate, not as collection-not-found. -/
theorem createContextItem_duplicate_checked_first_witness :
    createContextItem (fun c => c) "I2"
        { collection_id := "NOPE", title := "Doc", content := "hello"
          content_type := "text/plain", source_url := none, source_type := "manual"
          tags := [], metadata := "{}" } (some "U") demoState =
      Except.error "Duplicate content detected" :=
  createContextItem_duplicate_checked_first (fun c => c) "I2"
    { collection_id := "NOPE", title := "Doc", content := "hello"
      content_type := "text/plain", source_url := none, source_type := "manual"
      tags := [], metadata := "{}" } (some "U") demoState demoItem
    (by decide) rfl rfl (by decide)

end VoidMCP
